import Mathlib

/-!
Shallow embedding of `src/weather_visualizer.py`.

The Python module fetches a 5-day/3-hour forecast, reshapes the JSON payload
into records (`process_data`), renders a dashboard (`create_dashboard`), and
exposes a CLI entry point (`main`).  This file embeds the data-reshaping,
slugification, output-path and exit-code logic as executable Lean definitions
translated from the source, and proves the specification claims about them.

Modelling conventions:
  * JSON payloads are the inductive `Json` below; Python dicts are ordered
    association lists, as produced by `json.loads`.
  * Python floats are `PyFloat`: either `nan` or an exact rational value.
    (`float("nan")` at line 124 of the source is the only NaN producer that
    matters here.)
  * Python exceptions that the source catches locally (the `try` around the
    record literal, lines 118-129) are `Option.none`; exceptions that would
    escape a function are `ProcessResult.raised` / `Except.error`.
  * Unicode-dependent primitives (`str.isalnum`, `str.lower`, `str.title`)
    are modelled on the Basic Latin + Latin-1 fragment, which covers every
    string this development evaluates; the fragment is documented at each
    definition.
-/

/-- JSON values as returned by `response.json()`.  Objects keep their
key/value pairs in insertion order, as Python dicts do. -/
inductive Json where
  | null
  | bool (b : Bool)
  | num (q : Rat)
  | str (s : String)
  | arr (items : List Json)
  | obj (fields : List (String × Json))

/-- Python truthiness (`bool(x)`) on the JSON fragment: `None`, `False`, `0`,
`""`, `[]` and `\x7b\x7d` are falsy, everything else truthy.  Used by the
`if not data` tests at lines 112 and 290 and `if not records` at line 131. -/
def Json.isTruthy : Json → Bool
  | .null => false
  | .bool b => b
  | .num q => decide (q ≠ 0)
  | .str s => decide (s ≠ "")
  | .arr items => !items.isEmpty
  | .obj fields => !fields.isEmpty

/-- Python iteration (`for item in v`): lists yield their elements, strings
their characters (as one-character strings), dicts their keys; other values
raise `TypeError`.  Used for the loop at line 117 of the source. -/
def pyIter : Json → Except String (List Json)
  | .arr items => .ok items
  | .str s => .ok (s.data.map fun c => Json.str (String.mk [c]))
  | .obj fields => .ok (fields.map fun kv => Json.str kv.1)
  | _ => .error "TypeError: not iterable"

/-- Does `needle` start `hay`?  Helper for the substring test below. -/
def startsWithChars : List Char → List Char → Bool
  | _, [] => true
  | [], _ :: _ => false
  | h :: t, n :: ns => h == n && startsWithChars t ns

/-- Does `needle` occur contiguously in `hay`?  Models Python `sub in s`
for strings (the `"list" not in data` test at line 112 when `data` is a
string). -/
def containsChars (hay needle : List Char) : Bool :=
  match hay with
  | [] => needle.isEmpty
  | _ :: t => startsWithChars hay needle || containsChars t needle

/-- Nat-level form of Python `str.lower` on one character, for the Basic
Latin + Latin-1 fragment: `A`-`Z` and `À`-`Þ` (except the multiplication
sign 215) shift down to their lowercase forms 32 code points higher; every
other code point in the fragment is its own lowercase form.  (The sharp s
223 and all code points at 256 and above are left unchanged, which agrees
with Python throughout Latin-1.) -/
def pyLowerNat (n : Nat) : Nat :=
  if 65 ≤ n ∧ n ≤ 90 then n + 32
  else if 192 ≤ n ∧ n ≤ 222 ∧ n ≠ 215 then n + 32
  else n

/-- Python `str.lower` on one character (Latin-1 fragment, see
`pyLowerNat`). -/
def pyLower (c : Char) : Char := Char.ofNat (pyLowerNat c.toNat)

/-- Nat-level form of the titlecase mapping used by Python `str.title` on one
character, for the Basic Latin + Latin-1 fragment: `a`-`z` and `à`-`þ`
(except the division sign 247) shift up 32 code points; `ÿ` (255) titlecases
to 376 and micro sign (181) to Greek capital Mu (924).  The sharp s (223),
whose titlecase form is two characters, is left unchanged; it does not occur
in any string this development evaluates. -/
def pyUpperNat (n : Nat) : Nat :=
  if 97 ≤ n ∧ n ≤ 122 then n - 32
  else if 224 ≤ n ∧ n ≤ 254 ∧ n ≠ 247 then n - 32
  else if n = 255 then 376
  else if n = 181 then 924
  else n

/-- Titlecase mapping on one character (Latin-1 fragment, see
`pyUpperNat`). -/
def pyUpper (c : Char) : Char := Char.ofNat (pyUpperNat c.toNat)

/-- Python `str.isalnum` on one character, restricted to the Basic Latin +
Latin-1 fragment: ASCII letters and digits, the Latin-1 letters 192-255
except the multiplication (215) and division (247) signs, the letters
ordinal-a (170), micro (181), ordinal-o (186), and the numeric superscripts
and fractions 178, 179, 185, 188, 189, 190.  Code points at 256 and above
are (unfaithfully for other alphabets, harmlessly for this development)
treated as non-alphanumeric. -/
def pyIsAlnum (c : Char) : Bool :=
  decide ((48 ≤ c.toNat ∧ c.toNat ≤ 57)
    ∨ (65 ≤ c.toNat ∧ c.toNat ≤ 90)
    ∨ (97 ≤ c.toNat ∧ c.toNat ≤ 122)
    ∨ (192 ≤ c.toNat ∧ c.toNat ≤ 255 ∧ c.toNat ≠ 215 ∧ c.toNat ≠ 247)
    ∨ c.toNat = 170 ∨ c.toNat = 181 ∨ c.toNat = 186
    ∨ c.toNat = 178 ∨ c.toNat = 179 ∨ c.toNat = 185
    ∨ c.toNat = 188 ∨ c.toNat = 189 ∨ c.toNat = 190)

/-- Is the character cased, in the sense used by Python `str.title` to find
word boundaries?  On the Basic Latin + Latin-1 fragment: ASCII letters, the
Latin-1 letters 192-255 except 215 and 247, and the lowercase letters 170,
181, 186.  Digits and superscripts are not cased. -/
def pyIsCased (c : Char) : Bool :=
  c.isAlpha
    || (192 ≤ c.toNat && c.toNat ≤ 255 && c.toNat != 215 && c.toNat != 247)
    || (c.toNat == 170 || c.toNat == 181 || c.toNat == 186)

/-- Core loop of Python `str.title` (line 125 of the source applies it to
the weather description): walk the characters tracking whether the previous
character was cased; a cased character is titlecased after an uncased one
and lowercased after a cased one; uncased characters pass through and reset
the word boundary. -/
def pyTitleAux : Bool → List Char → List Char
  | _, [] => []
  | prevCased, c :: cs =>
    if pyIsCased c then
      (if prevCased then pyLower c else pyUpper c) :: pyTitleAux true cs
    else
      c :: pyTitleAux false cs

/-- Python `str.title` (Latin-1 fragment). -/
def pyTitle (s : String) : String := String.mk (pyTitleAux false s.data)

/-- Python `str(x)` on the JSON fragment: exact for strings, booleans and
`None`; numbers and containers are rendered approximately (Lean `toString`
of the rational, fixed markers for containers) since only string
descriptions are ever exercised by the claims. -/
def pyStr : Json → String
  | .str s => s
  | .null => "None"
  | .bool b => if b then "True" else "False"
  | .num q => toString q
  | .arr _ => "<list>"
  | .obj _ => "<dict>"

/-- Python float values as they occur in this program: NaN (from
`float("nan")` at line 124) or an exact rational. -/
inductive PyFloat where
  | nan
  | val (q : Rat)
deriving DecidableEq, Repr

/-- Python `float(x)` on a JSON value: numbers convert exactly, booleans to
0 or 1; `None`, strings and containers fail (raise, hence `none`).
Modelling note: Python would also accept numeric strings such as `"3.5"`;
that coercion is not modelled and such strings count as failed extraction
here. -/
def pyFloat : Json → Option PyFloat
  | .num q => some (PyFloat.val q)
  | .bool b => some (PyFloat.val (if b then 1 else 0))
  | _ => Option.none

/-- Python `pd.to_datetime(x, unit="s")` (line 120): a numeric value is read
as seconds since the epoch; the timestamp is kept as that exact rational.
Modelling note: pandas would also accept numeric strings and map `None` to
`NaT`; neither is modelled, and such values count as failed extraction. -/
def toDatetime : Json → Option Rat
  | .num q => some q
  | _ => Option.none

/-- Subscript or `.get` access requires a dict; anything else raises inside
the extraction `try` block. -/
def asObj : Json → Option (List (String × Json))
  | .obj fields => some fields
  | _ => Option.none

/-- One normalized forecast record, i.e. one row of the DataFrame built at
line 135 (the derived `datetime_label` display column added at line 137 is
presentation-only and not modelled). -/
structure Record where
  datetime : Rat
  temperature : PyFloat
  feels_like : PyFloat
  humidity : PyFloat
  wind_speed : PyFloat
  weather_description : String
deriving DecidableEq, Repr

/-- Wind-speed extraction, line 124 of the source:
`float(item.get("wind", \x7b\x7d).get("speed", float("nan")))`.
A missing `wind` key falls back to an empty dict, whose `.get("speed", nan)`
yields NaN; a present `wind` dict without `speed` also yields NaN; a present
non-dict `wind` value has no `.get` and raises, failing the extraction. -/
def windOf (fields : List (String × Json)) : Option PyFloat :=
  match fields.lookup "wind" with
  | Option.none => some PyFloat.nan
  | some (.obj wf) =>
    match wf.lookup "speed" with
    | Option.none => some PyFloat.nan
    | some sv => pyFloat sv
  | some _ => Option.none

/-- Description extraction, line 125 of the source:
`str(item.get("weather", [\x7b\x7d])[0].get("description", "")).title()`.
A missing `weather` key falls back to the one-element list `[\x7b\x7d]`, so
its first element is an empty dict and the description defaults to `""`;
a present but EMPTY `weather` list raises `IndexError` at `[0]` and fails
the extraction; a first element that is not a dict has no `.get` and also
fails. -/
def descOf (fields : List (String × Json)) : Option String := do
  let warr ← match fields.lookup "weather" with
    | Option.none => some [Json.obj []]
    | some (.arr ws) => some ws
    | some _ => Option.none
  let w0 ← warr.head?
  let wobj ← asObj w0
  some (pyTitle (pyStr ((wobj.lookup "description").getD (Json.str ""))))

/-- Field extraction for one forecast entry: the record literal inside the
`try` block at lines 118-127.  Any exception during extraction is caught at
line 128 and the entry is skipped, which this function models by returning
`none`.  A non-dict entry fails at the first subscript `item["dt"]`. -/
def extractRecord (item : Json) : Option Record := do
  let fields ← asObj item
  let dtv ← fields.lookup "dt"
  let dt ← toDatetime dtv
  let mainv ← fields.lookup "main"
  let m ← asObj mainv
  let temperature ← pyFloat (← m.lookup "temp")
  let feels ← pyFloat (← m.lookup "feels_like")
  let humidity ← pyFloat (← m.lookup "humidity")
  let wind ← windOf fields
  let desc ← descOf fields
  some ⟨dt, temperature, feels, humidity, wind, desc⟩

/-- Comparison used by `df.sort_values("datetime")` at line 136: ascending
by timestamp. -/
def byDatetime (a b : Record) : Bool := decide (a.datetime ≤ b.datetime)

/-- Sorting step of `process_data` (line 136).  Modelling note: pandas
`sort_values` with its default `kind="quicksort"` guarantees the ascending
order but not stability; this embedding uses a merge sort, which realizes
one admissible outcome (see the discussion at the stability claim). -/
def sortRecords (records : List Record) : List Record :=
  records.mergeSort byDatetime

/-- Possible outcomes of `process_data` (lines 105-138). -/
inductive ProcessResult where
  /-- An exception escaped `process_data` (nothing outside the per-entry
  `try` block catches anything). -/
  | raised (msg : String)
  /-- Returned `None` after logging the missing-list error (lines 112-114). -/
  | missingListField
  /-- Returned `None` after logging the no-valid-records error
  (lines 131-133). -/
  | noValidRecords
  /-- Returned the DataFrame with the given rows, already sorted
  (lines 135-138). -/
  | frame (records : List Record)
deriving DecidableEq, Repr

/-- Embedding of `process_data` (lines 105-138 of the source).
`if not data or "list" not in data` returns `None` for falsy input or when
the membership test fails; the membership test itself is dict-key lookup for
dicts, element equality for lists, substring for strings, and a `TypeError`
for numbers and booleans.  When the test passes on a non-dict the subsequent
`data.get` raises `AttributeError`.  For a dict, the entries of the `list`
value are iterated, each entry going through `extractRecord`; an empty
surviving-record list returns `None`, otherwise the records are sorted
ascending by timestamp. -/
def process_data (data : Json) : ProcessResult :=
  if !data.isTruthy then ProcessResult.missingListField
  else
    match data with
    | .obj fields =>
      match fields.lookup "list" with
      | Option.none => ProcessResult.missingListField
      | some v =>
        match pyIter v with
        | .error msg => ProcessResult.raised msg
        | .ok items =>
          let records := items.filterMap extractRecord
          if records.isEmpty then ProcessResult.noValidRecords
          else ProcessResult.frame (sortRecords records)
    | .str s =>
      if containsChars s.data ("list".data) then
        ProcessResult.raised "AttributeError: str has no get"
      else ProcessResult.missingListField
    | .arr items =>
      if items.any (fun j => match j with | .str s => s == "list" | _ => false) then
        ProcessResult.raised "AttributeError: list has no get"
      else ProcessResult.missingListField
    | _ => ProcessResult.raised "TypeError: argument of type is not iterable"

/-- Per-character step of `_slugify` (line 228 of the source):
`c.lower() if c.isalnum() else "_"`. -/
def slugChar (c : Char) : Char := if pyIsAlnum c then pyLower c else '_'

/-- Python `str.strip("_")`: drop underscores from both ends. -/
def stripUnderscores (cs : List Char) : List Char :=
  List.rdropWhile (fun c => c == '_') (cs.dropWhile (fun c => c == '_'))

/-- Embedding of the static method `_slugify` (lines 226-228):
`"".join(c.lower() if c.isalnum() else "_" for c in value).strip("_")`,
under the single-character lowercase model `pyLower` (exact on Basic Latin
and Latin-1).  Python lowercasing is one-to-many on exactly one code point,
the dotted capital I (U+0130); `slugifyU` below embeds the same source line
under that full mapping. -/
def _slugify (value : String) : String :=
  String.mk (stripUnderscores (value.data.map slugChar))

/-- Python lowercase of one character as a character list: `[pyLower c]`
for every character except the dotted capital I (U+0130, code point 304),
the one code point whose Python lowercase expands to two characters, small
i (105) followed by combining dot above (U+0307, 775). -/
def pyLowerChars (c : Char) : List Char :=
  if c.toNat = 304 then [Char.ofNat 105, Char.ofNat 775] else [pyLower c]

/-- Python `str.isalnum` extended beyond the Latin-1 fragment with the two
code points the idempotence analysis needs: the dotted capital I (304) is a
letter, the combining dot above (775) is not. -/
def pyIsAlnumU (c : Char) : Bool := pyIsAlnum c || c.toNat == 304

/-- Line 228 of the source once more, now under the one-to-many Unicode
lowercase: each alphanumeric character contributes the characters of its
lowercase form, every other character an underscore, and the ends are
stripped of underscores.  Agrees with `_slugify` on Latin-1 strings and
additionally exposes the U+0130 behavior that a character-to-character
lowercase cannot represent. -/
def slugifyU (value : String) : String :=
  String.mk (stripUnderscores (value.data.flatMap
    (fun c => if pyIsAlnumU c then pyLowerChars c else ['_'])))

/-- Output-path resolution in `create_dashboard` (lines 206-208): an
explicit path is used as given, otherwise the default
`f"\x7bself._slugify(city)\x7d_weather_dashboard.png"` is built. -/
def resolveOutputPath (city : String) (output_path : Option String) : String :=
  match output_path with
  | some p => p
  | Option.none => _slugify city ++ "_weather_dashboard.png"

/-- City resolution at the top of `main` (lines 270-275): the `--city`
argument if present and non-empty, otherwise the interactively prompted
value.  `promptedCity` stands for the already-stripped result of
`input(...).strip()`, with `""` for `EOFError`. -/
def resolveCity (cityArg : Option String) (promptedCity : String) : String :=
  match cityArg with
  | some c => if c = "" then promptedCity else c
  | Option.none => promptedCity

/-- Embedding of `main` (lines 266-299) as a function of its effectful
inputs: the parsed `--city` argument, the prompted city, the resolved API
key (`""` when missing), and the result of `fetch_data` (`none` when the
fetch returned `None`).  The `argparse` layer guarantees `--units` is one of
the supported choices and the API key was just checked non-empty, so the
`WeatherVisualizer` constructor (lines 37-40) cannot raise here.
`create_dashboard` only performs rendering side effects and does not affect
the return value (line 298-299).  The result is `Except.error` when an
exception escapes `process_data` (and hence `main`), else `Except.ok` with
the process exit code. -/
def main_exit (cityArg : Option String) (promptedCity : String)
    (apiKey : String) (fetchResult : Option Json) : Except String Nat :=
  let city := resolveCity cityArg promptedCity
  if city = "" then Except.ok 2
  else if apiKey = "" then Except.ok 2
  else
    match fetchResult with
    | Option.none => Except.ok 1
    | some data =>
      if !data.isTruthy then Except.ok 1
      else
        match process_data data with
        | ProcessResult.raised msg => Except.error msg
        | ProcessResult.missingListField => Except.ok 1
        | ProcessResult.noValidRecords => Except.ok 1
        | ProcessResult.frame records =>
          if records.isEmpty then Except.ok 1 else Except.ok 0

/-- A fully valid forecast entry with the given timestamp, used as concrete
test data. -/
def sampleEntry (t : Rat) : Json :=
  Json.obj [("dt", Json.num t),
    ("main", Json.obj [("temp", Json.num 10), ("feels_like", Json.num 9),
      ("humidity", Json.num 80)]),
    ("wind", Json.obj [("speed", Json.num 3)]),
    ("weather", Json.arr [Json.obj [("description", Json.str "light rain")]])]

/-- Concrete forecast list mixing valid and malformed entries, out of
timestamp order. -/
def sampleItems : List Json := [sampleEntry 5, Json.null, sampleEntry 2]

/-- Concrete top-level payload wrapping `sampleItems`. -/
def sampleData : Json := Json.obj [("list", Json.arr sampleItems)]

/-- Auxiliary fact: packing a Nat below the surrogate range into a `Char`
and unpacking it is the identity. -/
theorem toNat_ofNat_of_valid {n : Nat} (h : n < 55296) : (Char.ofNat n).toNat = n := by
  rw [Char.ofNat, dif_pos (Or.inl h)]
  simp [Char.ofNatAux, Char.toNat, UInt32.toNat]

theorem char_eq_of_toNat_eq {c d : Char} (h : c.toNat = d.toNat) : c = d :=
  Char.ext (UInt32.toNat.inj h)

theorem pyLower_toNat (c : Char) : (pyLower c).toNat = pyLowerNat c.toNat := by
  unfold pyLower pyLowerNat
  by_cases h1 : 65 ≤ c.toNat ∧ c.toNat ≤ 90
  · rw [if_pos h1, toNat_ofNat_of_valid (by omega)]
  · rw [if_neg h1]
    by_cases h2 : 192 ≤ c.toNat ∧ c.toNat ≤ 222 ∧ c.toNat ≠ 215
    · rw [if_pos h2, toNat_ofNat_of_valid (by omega)]
    · rw [if_neg h2, Char.ofNat_toNat]

theorem pyLowerNat_idem (n : Nat) : pyLowerNat (pyLowerNat n) = pyLowerNat n := by
  unfold pyLowerNat
  by_cases h1 : 65 ≤ n ∧ n ≤ 90
  · rw [if_pos h1, if_neg (by omega), if_neg (by omega)]
  · rw [if_neg h1]
    by_cases h2 : 192 ≤ n ∧ n ≤ 222 ∧ n ≠ 215
    · rw [if_pos h2, if_neg (by omega), if_neg (by omega)]
    · rw [if_neg h2, if_neg h1, if_neg h2]

theorem pyLower_idem (c : Char) : pyLower (pyLower c) = pyLower c := by
  apply char_eq_of_toNat_eq
  rw [pyLower_toNat, pyLower_toNat, pyLowerNat_idem]

theorem pyIsAlnum_pyLower {c : Char} (h : pyIsAlnum c = true) :
    pyIsAlnum (pyLower c) = true := by
  unfold pyIsAlnum at h ⊢
  rw [decide_eq_true_eq] at h ⊢
  rw [pyLower_toNat]
  unfold pyLowerNat
  split
  · omega
  · split
    · omega
    · omega

theorem slugChar_idem (c : Char) : slugChar (slugChar c) = slugChar c := by
  unfold slugChar
  by_cases h : pyIsAlnum c = true
  · rw [if_pos h, if_pos (pyIsAlnum_pyLower h), pyLower_idem]
  · rw [if_neg h]
    have hu : pyIsAlnum '_' = false := by decide
    rw [if_neg (by simp [hu])]

theorem mem_stripUnderscores {a : Char} {l : List Char} (h : a ∈ stripUnderscores l) :
    a ∈ l := by
  unfold stripUnderscores at h
  exact List.dropWhile_subset _
    ((List.rdropWhile_prefix (fun c => c == '_')
      (List.dropWhile (fun c => c == '_') l)).subset h)

theorem dropWhile_eq_self_of_head {p : Char → Bool} {l : List Char}
    (h : ∀ a ∈ l.head?, p a = false) : l.dropWhile p = l := by
  cases l with
  | nil => rfl
  | cons a t =>
    have ha : p a = false := h a rfl
    simp [List.dropWhile_cons, ha]

theorem stripUnderscores_idem (l : List Char) :
    stripUnderscores (stripUnderscores l) = stripUnderscores l := by
  unfold stripUnderscores
  have key : List.dropWhile (fun c => c == '_')
      (List.rdropWhile (fun c => c == '_') (List.dropWhile (fun c => c == '_') l)) =
      List.rdropWhile (fun c => c == '_') (List.dropWhile (fun c => c == '_') l) := by
    apply dropWhile_eq_self_of_head
    intro a ha
    rw [Option.mem_def] at ha
    obtain ⟨t, ht⟩ := List.rdropWhile_prefix (fun c => c == '_')
      (List.dropWhile (fun c => c == '_') l)
    have hy : (List.dropWhile (fun c => c == '_') l).head? = some a := by
      rw [← ht, List.head?_append, ha]
      rfl
    have h2 := List.head?_dropWhile_not (fun c => c == '_') l
    rw [hy] at h2
    exact h2
  rw [key, List.rdropWhile_idempotent]

/-- Model-level fact: under the single-character lowercase model the slug
output consists only of characters fixed by the per-character slug step, so
a second pass changes nothing and strips nothing.  The faithful statement
about the program is the Latin-1-restricted claim below; in full Unicode a
second pass can differ (see `slugify_not_idempotent_unicode`). -/
theorem slugify_model_idem (s : String) : _slugify (_slugify s) = _slugify s := by
  show String.mk (stripUnderscores ((stripUnderscores (s.data.map slugChar)).map slugChar))
      = String.mk (stripUnderscores (s.data.map slugChar))
  have hmap : (stripUnderscores (s.data.map slugChar)).map slugChar
      = stripUnderscores (s.data.map slugChar) := by
    have hfix : ∀ a ∈ stripUnderscores (s.data.map slugChar), slugChar a = a := by
      intro a ha
      obtain ⟨b, _, rfl⟩ := List.mem_map.mp (mem_stripUnderscores ha)
      exact slugChar_idem b
    have hid : List.map slugChar (stripUnderscores (List.map slugChar s.data))
        = List.map id (stripUnderscores (List.map slugChar s.data)) :=
      List.map_congr_left hfix
    rw [hid, List.map_id]
  rw [hmap, stripUnderscores_idem]

theorem sortRecords_perm (records : List Record) : (sortRecords records).Perm records :=
  List.mergeSort_perm records byDatetime

theorem byDatetime_trans : ∀ a b c : Record, byDatetime a b → byDatetime b c → byDatetime a c := by
  intro a b c hab hbc
  simp only [byDatetime, decide_eq_true_eq] at hab hbc ⊢
  exact le_trans hab hbc

theorem byDatetime_total : ∀ a b : Record, byDatetime a b || byDatetime b a := by
  intro a b
  simp only [byDatetime, Bool.or_eq_true, decide_eq_true_eq]
  exact le_total _ _

theorem sortRecords_sorted (records : List Record) :
    (sortRecords records).Pairwise (fun a b => a.datetime ≤ b.datetime) := by
  have h := List.sorted_mergeSort byDatetime_trans byDatetime_total records
  refine h.imp ?_
  intro a b hb
  simpa [byDatetime] using hb

theorem length_filterMap_eq_countP {α β : Type} (f : α → Option β) (l : List α) :
    (l.filterMap f).length = l.countP (fun a => (f a).isSome) := by
  induction l with
  | nil => rfl
  | cons a t ih =>
    cases h : f a with
    | none => simp [List.filterMap_cons, h, List.countP_cons, ih]
    | some b => simp [List.filterMap_cons, h, List.countP_cons, ih]

theorem process_data_obj_list {fields : List (String × Json)} {items : List Json}
    (h : fields.lookup "list" = some (Json.arr items)) :
    process_data (Json.obj fields) =
      if (items.filterMap extractRecord).isEmpty then ProcessResult.noValidRecords
      else ProcessResult.frame (sortRecords (items.filterMap extractRecord)) := by
  have hne : fields ≠ [] := by
    intro hE
    rw [hE] at h
    simp at h
  unfold process_data
  have htr : (Json.obj fields).isTruthy = true := by
    simp [Json.isTruthy, hne]
  rw [htr]
  simp only [Bool.not_true, Bool.false_eq_true, if_false]
  rw [h]
  simp [pyIter]

theorem descOf_no_weather {fields : List (String × Json)}
    (h : fields.lookup "weather" = Option.none) : descOf fields = some "" := by
  simp [descOf, h, asObj]
  rfl

theorem descOf_first_description {fields wf : List (String × Json)}
    {rest : List Json} {s : String}
    (hw : fields.lookup "weather" = some (Json.arr (Json.obj wf :: rest)))
    (hd : wf.lookup "description" = some (Json.str s)) :
    descOf fields = some (pyTitle s) := by
  simp [descOf, hw, hd, asObj, pyStr]

theorem descOf_empty_weather {fields : List (String × Json)}
    (hw : fields.lookup "weather" = some (Json.arr [])) :
    descOf fields = Option.none := by
  simp [descOf, hw]

theorem extractRecord_of_descOf_none {fields : List (String × Json)}
    (h : descOf fields = Option.none) :
    extractRecord (Json.obj fields) = Option.none := by
  simp [extractRecord, asObj, h]

theorem descOf_of_extractRecord_some {fields : List (String × Json)} {r : Record}
    (h : extractRecord (Json.obj fields) = some r) :
    ∃ d, descOf fields = some d ∧ r.weather_description = d := by
  simp only [extractRecord, Option.bind_eq_bind, Option.bind_eq_some,
    Option.some.injEq] at h
  obtain ⟨f2, hf2, dtv, hdtv, dt, hdt, mainv, hmainv, m, hm, tv, htv, temp, htemp,
    fv, hfv, feels, hfeels, hv, hhv, hum, hhum, wind, hwind, desc, hdesc, hr⟩ := h
  obtain rfl : f2 = fields := by injection hf2.symm
  exact ⟨desc, hdesc, by rw [← hr]⟩

theorem asObj_obj (fs : List (String × Json)) : asObj (Json.obj fs) = some fs := rfl

theorem extractRecord_no_wind (fields m : List (String × Json)) (t tp fl hum : Rat)
    (d : String)
    (hdt : fields.lookup "dt" = some (Json.num t))
    (hmain : fields.lookup "main" = some (Json.obj m))
    (htemp : m.lookup "temp" = some (Json.num tp))
    (hfl : m.lookup "feels_like" = some (Json.num fl))
    (hhum : m.lookup "humidity" = some (Json.num hum))
    (hwind : fields.lookup "wind" = Option.none)
    (hdesc : descOf fields = some d) :
    extractRecord (Json.obj fields) =
      some ⟨t, PyFloat.val tp, PyFloat.val fl, PyFloat.val hum, PyFloat.nan, d⟩ := by
  have hw : windOf fields = some PyFloat.nan := by
    unfold windOf
    rw [hwind]
  simp only [extractRecord, Option.bind_eq_bind, asObj_obj, Option.some_bind]
  rw [hdt]
  simp only [Option.some_bind, toDatetime]
  rw [hmain]
  simp only [Option.some_bind, asObj_obj]
  rw [htemp]
  simp only [Option.some_bind, pyFloat]
  rw [hfl]
  simp only [Option.some_bind, pyFloat]
  rw [hhum]
  simp only [Option.some_bind, pyFloat]
  rw [hw]
  simp only [Option.some_bind]
  rw [hdesc]
  simp only [Option.some_bind]

theorem stripUnderscores_head? (l : List Char) :
    ∀ c ∈ (stripUnderscores l).head?, (c == '_') = false := by
  intro c hc
  rw [Option.mem_def] at hc
  unfold stripUnderscores at hc
  obtain ⟨t, ht⟩ := List.rdropWhile_prefix (fun c => c == '_')
    (List.dropWhile (fun c => c == '_') l)
  have hy : (List.dropWhile (fun c => c == '_') l).head? = some c := by
    rw [← ht, List.head?_append, hc]
    rfl
  have h2 := List.head?_dropWhile_not (fun c => c == '_') l
  rw [hy] at h2
  exact h2

theorem stripUnderscores_getLast? (l : List Char) :
    ∀ c ∈ (stripUnderscores l).getLast?, (c == '_') = false := by
  intro c hc
  rw [Option.mem_def] at hc
  unfold stripUnderscores at hc
  have hne : stripUnderscores l ≠ [] := by
    unfold stripUnderscores
    intro hE
    rw [hE] at hc
    simp at hc
  unfold stripUnderscores at hne
  have h2 := List.rdropWhile_last_not (fun c => c == '_')
    (l := List.dropWhile (fun c => c == '_') l) hne
  rw [List.getLast?_eq_getLast _ hne] at hc
  injection hc with hc2
  rw [← hc2]
  simpa using h2

theorem slugify_chars (s : String) :
    ∀ c ∈ (_slugify s).data, (pyIsAlnum c = true ∧ pyLower c = c) ∨ c = '_' := by
  intro c hc
  have hmem : c ∈ s.data.map slugChar := mem_stripUnderscores hc
  obtain ⟨b, _, rfl⟩ := List.mem_map.mp hmem
  unfold slugChar
  by_cases h : pyIsAlnum b = true
  · left
    rw [if_pos h]
    exact ⟨pyIsAlnum_pyLower h, pyLower_idem b⟩
  · right
    rw [if_neg h]

/-- C1 (amended): for a JSON object whose forecast list has at least one
entry surviving field extraction, `process_data` returns exactly one record
per valid entry, sorted ascending by timestamp, and for any permutation of
the input list the result is a permutation of the same records, of the same
length and again sorted. -/
theorem process_data_valid_entries_sorted
    (fields : List (String × Json)) (items : List Json)
    (hlist : fields.lookup "list" = some (Json.arr items))
    (hvalid : items.filterMap extractRecord ≠ []) :
    ∃ out, process_data (Json.obj fields) = ProcessResult.frame out ∧
      out.length = items.countP (fun i => (extractRecord i).isSome) ∧
      out.Pairwise (fun a b => a.datetime ≤ b.datetime) ∧
      ∀ fields2 items2, items.Perm items2 →
        fields2.lookup "list" = some (Json.arr items2) →
        ∃ out2, process_data (Json.obj fields2) = ProcessResult.frame out2 ∧
          out2.Perm out ∧ out2.length = out.length ∧
          out2.Pairwise (fun a b => a.datetime ≤ b.datetime) := by
  refine ⟨sortRecords (items.filterMap extractRecord), ?_, ?_, sortRecords_sorted _, ?_⟩
  · rw [process_data_obj_list hlist, if_neg (by simpa using hvalid)]
  · rw [(sortRecords_perm _).length_eq, length_filterMap_eq_countP]
  · intro fields2 items2 hperm hlist2
    have hplist : (items2.filterMap extractRecord).Perm (items.filterMap extractRecord) :=
      hperm.symm.filterMap extractRecord
    have hvalid2 : items2.filterMap extractRecord ≠ [] := by
      intro hE
      rw [hE] at hplist
      exact hvalid hplist.symm.eq_nil
    refine ⟨sortRecords (items2.filterMap extractRecord), ?_, ?_, ?_, sortRecords_sorted _⟩
    · rw [process_data_obj_list hlist2, if_neg (by simpa using hvalid2)]
    · exact (sortRecords_perm _).trans (hplist.trans (sortRecords_perm _).symm)
    · rw [(sortRecords_perm _).length_eq, (sortRecords_perm _).length_eq]
      exact hplist.length_eq

/-- C1 witness: on the concrete sample payload the theorem instantiates. -/
theorem process_data_valid_entries_sorted_witness :
    ∃ out, process_data (Json.obj [("list", Json.arr sampleItems)]) = ProcessResult.frame out ∧
      out.length = sampleItems.countP (fun i => (extractRecord i).isSome) ∧
      out.Pairwise (fun a b => a.datetime ≤ b.datetime) ∧
      ∀ fields2 items2, sampleItems.Perm items2 →
        fields2.lookup "list" = some (Json.arr items2) →
        ∃ out2, process_data (Json.obj fields2) = ProcessResult.frame out2 ∧
          out2.Perm out ∧ out2.length = out.length ∧
          out2.Pairwise (fun a b => a.datetime ≤ b.datetime) :=
  process_data_valid_entries_sorted [("list", Json.arr sampleItems)] sampleItems rfl
    (by decide)

/-- C1 counterexample: with zero valid entries (N = 0, M = 1) `process_data`
does not return a zero-record result; it fails with the no-valid-records
error, so the unrestricted claim is false at this input. -/
theorem process_data_zero_valid_is_error :
    process_data (Json.obj [("list", Json.arr [Json.null])]) =
      ProcessResult.noValidRecords ∧
    ∀ out : List Record,
      process_data (Json.obj [("list", Json.arr [Json.null])]) ≠
        ProcessResult.frame out := by
  refine ⟨by decide, ?_⟩
  intro out h
  rw [show process_data (Json.obj [("list", Json.arr [Json.null])]) =
    ProcessResult.noValidRecords by decide] at h
  exact ProcessResult.noConfusion h

/-- C4: a dict input with no top-level `list` key makes `process_data` fail
with the missing-list-field parse error, producing no records. -/
theorem process_data_missing_list_field (fields : List (String × Json))
    (h : fields.lookup "list" = Option.none) :
    process_data (Json.obj fields) = ProcessResult.missingListField ∧
    ∀ out : List Record,
      process_data (Json.obj fields) ≠ ProcessResult.frame out := by
  have hmain : process_data (Json.obj fields) = ProcessResult.missingListField := by
    unfold process_data
    by_cases hne : fields.isEmpty
    · simp [Json.isTruthy, hne]
    · simp [Json.isTruthy, hne, h]
  exact ⟨hmain, fun out hout => by
    rw [hmain] at hout
    exact ProcessResult.noConfusion hout⟩

/-- C4 witness: a concrete dict without a `list` key. -/
theorem process_data_missing_list_field_witness :
    process_data (Json.obj [("cod", Json.str "200")]) =
      ProcessResult.missingListField ∧
    ∀ out : List Record,
      process_data (Json.obj [("cod", Json.str "200")]) ≠ ProcessResult.frame out :=
  process_data_missing_list_field [("cod", Json.str "200")] rfl

/-- C5: when the forecast list is present but every entry fails extraction,
`process_data` fails with the no-valid-records parse error rather than
returning an empty record sequence. -/
theorem process_data_all_malformed_fails (fields : List (String × Json))
    (items : List Json)
    (hlist : fields.lookup "list" = some (Json.arr items))
    (hmal : items.filterMap extractRecord = []) :
    process_data (Json.obj fields) = ProcessResult.noValidRecords ∧
    ∀ out : List Record,
      process_data (Json.obj fields) ≠ ProcessResult.frame out := by
  have hmain : process_data (Json.obj fields) = ProcessResult.noValidRecords := by
    rw [process_data_obj_list hlist, hmal]
    rfl
  exact ⟨hmain, fun out hout => by
    rw [hmain] at hout
    exact ProcessResult.noConfusion hout⟩

/-- C5 witness: a concrete list whose entries are all malformed. -/
theorem process_data_all_malformed_fails_witness :
    process_data (Json.obj [("list", Json.arr [Json.bool true, Json.str "x"])]) =
      ProcessResult.noValidRecords ∧
    ∀ out : List Record,
      process_data (Json.obj [("list", Json.arr [Json.bool true, Json.str "x"])]) ≠
        ProcessResult.frame out :=
  process_data_all_malformed_fails [("list", Json.arr [Json.bool true, Json.str "x"])]
    [Json.bool true, Json.str "x"] rfl (by decide)

/-- C3 (amended): the description of a record is the description field of the
first weather object passed through Python `str.title` (first letter of each
letter run uppercased, the rest lowercased), with `"light rain"` becoming
`"Light Rain"`; a missing weather key defaults the description to the empty
string, while a present but empty weather array fails extraction, so the
entry is skipped rather than kept. -/
theorem weather_description_rules :
    pyTitle "light rain" = "Light Rain" ∧
    (∀ fields : List (String × Json), fields.lookup "weather" = Option.none →
      descOf fields = some "") ∧
    (∀ (fields wf : List (String × Json)) (rest : List Json) (s : String),
      fields.lookup "weather" = some (Json.arr (Json.obj wf :: rest)) →
      wf.lookup "description" = some (Json.str s) →
      descOf fields = some (pyTitle s)) ∧
    (∀ fields : List (String × Json),
      fields.lookup "weather" = some (Json.arr []) →
      descOf fields = Option.none ∧ extractRecord (Json.obj fields) = Option.none) ∧
    (∀ (fields : List (String × Json)) (r : Record),
      extractRecord (Json.obj fields) = some r →
      ∃ d, descOf fields = some d ∧ r.weather_description = d) := by
  refine ⟨by decide, ?_, ?_, ?_, ?_⟩
  · exact fun fields h => descOf_no_weather h
  · exact fun fields wf rest s hw hd => descOf_first_description hw hd
  · exact fun fields hw =>
      ⟨descOf_empty_weather hw, extractRecord_of_descOf_none (descOf_empty_weather hw)⟩
  · exact fun fields r h => descOf_of_extractRecord_some h

/-- C3 witness: the rules instantiated on concrete weather fields. -/
theorem weather_description_rules_witness :
    descOf [("weather", Json.arr [Json.obj [("description", Json.str "light rain")]])] =
      some "Light Rain" ∧
    descOf [("weather", Json.arr [])] = Option.none := by
  constructor
  · have h := weather_description_rules.2.2.1
      [("weather", Json.arr [Json.obj [("description", Json.str "light rain")]])]
      [("description", Json.str "light rain")] [] "light rain" rfl rfl
    rw [h, show pyTitle "light rain" = "Light Rain" by decide]
  · exact (weather_description_rules.2.2.2.1 [("weather", Json.arr [])] rfl).1

/-- C3 counterexample: an otherwise fully valid entry whose weather array is
present but empty is skipped (extraction fails), contradicting the claim
that it still yields a record with an empty description. -/
theorem empty_weather_array_entry_skipped :
    extractRecord (Json.obj [("dt", Json.num 0),
      ("main", Json.obj [("temp", Json.num 10), ("feels_like", Json.num 9),
        ("humidity", Json.num 80)]),
      ("wind", Json.obj [("speed", Json.num 3)]),
      ("weather", Json.arr [])]) = Option.none := by decide

/-- C6: an entry that is valid in every other field but has no wind data
still produces a record, whose wind speed is NaN. -/
theorem absent_wind_yields_nan (fields m : List (String × Json)) (t tp fl hum : Rat)
    (d : String)
    (hdt : fields.lookup "dt" = some (Json.num t))
    (hmain : fields.lookup "main" = some (Json.obj m))
    (htemp : m.lookup "temp" = some (Json.num tp))
    (hfl : m.lookup "feels_like" = some (Json.num fl))
    (hhum : m.lookup "humidity" = some (Json.num hum))
    (hwind : fields.lookup "wind" = Option.none)
    (hdesc : descOf fields = some d) :
    extractRecord (Json.obj fields) =
      some ⟨t, PyFloat.val tp, PyFloat.val fl, PyFloat.val hum, PyFloat.nan, d⟩ :=
  extractRecord_no_wind fields m t tp fl hum d hdt hmain htemp hfl hhum hwind hdesc

/-- C6 witness: a concrete windless entry yields a record with NaN wind. -/
theorem absent_wind_yields_nan_witness :
    extractRecord (Json.obj [("dt", Json.num 100),
      ("main", Json.obj [("temp", Json.num 20), ("feels_like", Json.num 19),
        ("humidity", Json.num 60)]),
      ("weather", Json.arr [Json.obj [("description", Json.str "clear sky")]])]) =
      some ⟨100, PyFloat.val 20, PyFloat.val 19, PyFloat.val 60, PyFloat.nan,
        "Clear Sky"⟩ :=
  absent_wind_yields_nan
    [("dt", Json.num 100),
      ("main", Json.obj [("temp", Json.num 20), ("feels_like", Json.num 19),
        ("humidity", Json.num 60)]),
      ("weather", Json.arr [Json.obj [("description", Json.str "clear sky")]])]
    [("temp", Json.num 20), ("feels_like", Json.num 19), ("humidity", Json.num 60)]
    100 20 19 60 "Clear Sky" rfl rfl rfl rfl rfl rfl (by decide)

/-- C7 counterexample: slugifying `"São Paulo!"` does not give
`"s_o_paulo"`; Python treats `ã` as alphanumeric, so it is kept. -/
theorem slugify_sao_paulo_not_ascii_folded :
    _slugify "São Paulo!" ≠ "s_o_paulo" := by decide

/-- C7 (amended): slugifying `"São Paulo!"` gives `"são_paulo"`; every
character of the result is a lowercase alphanumeric (in the Unicode sense
of Python `str.isalnum`) or an underscore, with no leading or trailing
underscore. -/
theorem slugify_sao_paulo_unicode :
    _slugify "São Paulo!" = "são_paulo" ∧
    (∀ c ∈ (_slugify "São Paulo!").data,
      (pyIsAlnum c = true ∧ pyLower c = c) ∨ c = '_') ∧
    (_slugify "São Paulo!").data.head? ≠ some '_' ∧
    (_slugify "São Paulo!").data.getLast? ≠ some '_' := by decide

/-- C8: with no output path given, the dashboard is saved to the slugified
city name followed by `_weather_dashboard.png`; slugification yields only
lowercase alphanumerics and underscores with no underscore at either end,
and for `"New York"` the default path is
`"new_york_weather_dashboard.png"`. -/
theorem default_output_filename (city : String) :
    resolveOutputPath city Option.none = _slugify city ++ "_weather_dashboard.png" ∧
    (∀ c ∈ (_slugify city).data, (pyIsAlnum c = true ∧ pyLower c = c) ∨ c = '_') ∧
    (∀ c ∈ (_slugify city).data.head?, (c == '_') = false) ∧
    (∀ c ∈ (_slugify city).data.getLast?, (c == '_') = false) ∧
    resolveOutputPath "New York" Option.none = "new_york_weather_dashboard.png" := by
  refine ⟨rfl, slugify_chars city, ?_, ?_, by decide⟩
  · exact stripUnderscores_head? (city.data.map slugChar)
  · exact stripUnderscores_getLast? (city.data.map slugChar)

theorem main_exit_fetch_none (cityArg : Option String) (promptedCity apiKey : String)
    (hc : resolveCity cityArg promptedCity ≠ "") (hk : apiKey ≠ "") :
    main_exit cityArg promptedCity apiKey Option.none = Except.ok 1 := by
  unfold main_exit
  rw [if_neg hc, if_neg hk]

theorem main_exit_fetch_some (cityArg : Option String) (promptedCity apiKey : String)
    (d : Json) (hc : resolveCity cityArg promptedCity ≠ "") (hk : apiKey ≠ "") :
    main_exit cityArg promptedCity apiKey (some d) =
      if !d.isTruthy then Except.ok 1
      else
        match process_data d with
        | ProcessResult.raised msg => Except.error msg
        | ProcessResult.missingListField => Except.ok 1
        | ProcessResult.noValidRecords => Except.ok 1
        | ProcessResult.frame records =>
          if records.isEmpty then Except.ok 1 else Except.ok 0 := by
  unfold main_exit
  rw [if_neg hc, if_neg hk]

/-- C9: `main` exits 2 exactly when the resolved city or the API key is
missing, and that decision does not depend on any fetch result; with both
present it exits 1 when the fetch failed, the payload is falsy, or
normalization fails with either parse error; and it exits 0 when the fetch
succeeded and normalization produced a nonempty frame. -/
theorem main_exit_codes (cityArg : Option String) (promptedCity apiKey : String)
    (fetchResult : Option Json) :
    (main_exit cityArg promptedCity apiKey fetchResult = Except.ok 2 ↔
      (resolveCity cityArg promptedCity = "" ∨ apiKey = "")) ∧
    ((resolveCity cityArg promptedCity = "" ∨ apiKey = "") →
      main_exit cityArg promptedCity apiKey fetchResult =
        main_exit cityArg promptedCity apiKey Option.none) ∧
    (resolveCity cityArg promptedCity ≠ "" → apiKey ≠ "" →
      (fetchResult = Option.none ∨
        (∃ d, fetchResult = some d ∧ (d.isTruthy = false ∨
          process_data d = ProcessResult.missingListField ∨
          process_data d = ProcessResult.noValidRecords))) →
      main_exit cityArg promptedCity apiKey fetchResult = Except.ok 1) ∧
    (resolveCity cityArg promptedCity ≠ "" → apiKey ≠ "" →
      ∀ (d : Json) (out : List Record), fetchResult = some d → d.isTruthy = true →
        process_data d = ProcessResult.frame out → out ≠ [] →
        main_exit cityArg promptedCity apiKey fetchResult = Except.ok 0) := by
  by_cases hc : resolveCity cityArg promptedCity = ""
  · refine ⟨?_, ?_, ?_, ?_⟩
    · simp [main_exit, hc]
    · intro _
      simp [main_exit, hc]
    · intro hcne
      exact absurd hc hcne
    · intro hcne
      exact absurd hc hcne
  · by_cases hk : apiKey = ""
    · refine ⟨?_, ?_, ?_, ?_⟩
      · simp [main_exit, hc, hk]
      · intro _
        simp [main_exit, hc, hk]
      · intro _ hkne
        exact absurd hk hkne
      · intro _ hkne
        exact absurd hk hkne
    · refine ⟨?_, ?_, ?_, ?_⟩
      · constructor
        · intro h
          exfalso
          cases fetchResult with
          | none =>
            rw [main_exit_fetch_none cityArg promptedCity apiKey hc hk] at h
            simp at h
          | some d =>
            rw [main_exit_fetch_some cityArg promptedCity apiKey d hc hk] at h
            by_cases ht : d.isTruthy = true
            · rw [ht] at h
              simp only [Bool.not_true, Bool.false_eq_true, if_false] at h
              cases hpd : process_data d <;> rw [hpd] at h <;> try simp at h
              rename_i records
              by_cases he : records = [] <;> simp [he] at h
            · rw [Bool.not_eq_true] at ht
              rw [ht] at h
              simp at h
        · rintro (h | h)
          · exact absurd h hc
          · exact absurd h hk
      · rintro (h | h)
        · exact absurd h hc
        · exact absurd h hk
      · rintro _ _ (rfl | ⟨d, rfl, hcase⟩)
        · exact main_exit_fetch_none cityArg promptedCity apiKey hc hk
        · rw [main_exit_fetch_some cityArg promptedCity apiKey d hc hk]
          rcases hcase with ht | hpd | hpd
          · rw [ht]
            simp
          · by_cases ht : d.isTruthy = true
            · rw [ht, hpd]
              simp
            · rw [Bool.not_eq_true] at ht
              rw [ht]
              simp
          · by_cases ht : d.isTruthy = true
            · rw [ht, hpd]
              simp
            · rw [Bool.not_eq_true] at ht
              rw [ht]
              simp
      · rintro _ _ d out rfl ht hpd hne
        rw [main_exit_fetch_some cityArg promptedCity apiKey d hc hk]
        rw [ht, hpd]
        simp [List.isEmpty_iff, hne]

unseal List.merge List.mergeSort in
/-- C9 witness: each exit code realized on concrete inputs. -/
theorem main_exit_codes_witness :
    main_exit Option.none "" "key" Option.none = Except.ok 2 ∧
    main_exit (some "London") "" "" Option.none = Except.ok 2 ∧
    main_exit (some "London") "" "key" Option.none = Except.ok 1 ∧
    main_exit (some "London") "" "key" (some sampleData) = Except.ok 0 := by
  refine ⟨?_, ?_, ?_, ?_⟩
  · exact (main_exit_codes Option.none "" "key" Option.none).1.mpr (Or.inl rfl)
  · exact (main_exit_codes (some "London") "" "" Option.none).1.mpr (Or.inr rfl)
  · exact (main_exit_codes (some "London") "" "key" Option.none).2.2.1
      (by decide) (by decide) (Or.inl rfl)
  · exact (main_exit_codes (some "London") "" "key" (some sampleData)).2.2.2
      (by decide) (by decide) sampleData
      (sortRecords (sampleItems.filterMap extractRecord)) rfl (by decide)
      (by decide) (by decide)

theorem pyLower_latin1 {c : Char} (h : c.toNat < 256) : (pyLower c).toNat < 256 := by
  rw [pyLower_toNat]
  unfold pyLowerNat
  split
  · omega
  · split
    · omega
    · omega

theorem slugChar_latin1 {c : Char} (h : c.toNat < 256) : (slugChar c).toNat < 256 := by
  unfold slugChar
  by_cases ha : pyIsAlnum c = true
  · rw [if_pos ha]
    exact pyLower_latin1 h
  · rw [if_neg ha]
    decide

theorem slugify_data_latin1 {s : String} (h : ∀ c ∈ s.data, c.toNat < 256) :
    ∀ c ∈ (_slugify s).data, c.toNat < 256 := by
  intro c hc
  have hmem : c ∈ s.data.map slugChar := mem_stripUnderscores hc
  obtain ⟨b, hb, rfl⟩ := List.mem_map.mp hmem
  exact slugChar_latin1 (h b hb)

theorem flatMap_eq_map_of_singleton {α β : Type} (f : α → List β) (g : α → β)
    (l : List α) (h : ∀ c ∈ l, f c = [g c]) : l.flatMap f = l.map g := by
  induction l with
  | nil => rfl
  | cons a t ih =>
    rw [List.flatMap_cons, List.map_cons, h a (by simp),
      ih (fun c hc => h c (by simp [hc]))]
    rfl

theorem slugifyU_eq_slugify_of_latin1 {s : String} (h : ∀ c ∈ s.data, c.toNat < 256) :
    slugifyU s = _slugify s := by
  unfold slugifyU _slugify
  congr 1
  congr 1
  apply flatMap_eq_map_of_singleton
  intro c hc
  have hlt := h c hc
  have hne : c.toNat ≠ 304 := by omega
  have h304 : (c.toNat == 304) = false := by
    simp [hne]
  unfold pyIsAlnumU
  rw [h304, Bool.or_false]
  unfold pyLowerChars
  rw [if_neg hne]
  unfold slugChar
  by_cases ha : pyIsAlnum c = true
  · rw [if_pos ha, if_pos ha]
  · rw [if_neg ha, if_neg ha]

/-- C10 counterexample: under the Unicode-faithful embedding of line 228 the
slugification of the program is not idempotent.  The dotted capital I
(U+0130) is alphanumeric and lowercases to small i plus combining dot above;
the combining dot is not alphanumeric, so a second pass turns it into an
underscore and strips it. -/
theorem slugify_not_idempotent_unicode :
    slugifyU (String.mk [Char.ofNat 304]) = String.mk [Char.ofNat 105, Char.ofNat 775] ∧
    slugifyU (slugifyU (String.mk [Char.ofNat 304])) = String.mk [Char.ofNat 105] ∧
    slugifyU (slugifyU (String.mk [Char.ofNat 304])) ≠
      slugifyU (String.mk [Char.ofNat 304]) := by decide

/-- C10 (amended): restricted to strings of Basic Latin and Latin-1
characters, where Python lowercasing is single-character and the embedding
is exact, slugification is idempotent, and the single-character and
Unicode-faithful embeddings of the slug line agree; full-Unicode idempotence
fails only through a code point (U+0130) whose lowercase expands to two
characters. -/
theorem slugify_idempotent_latin1 (s : String) (h : ∀ c ∈ s.data, c.toNat < 256) :
    _slugify (_slugify s) = _slugify s ∧
    slugifyU s = _slugify s ∧
    slugifyU (slugifyU s) = slugifyU s := by
  have h2 := slugifyU_eq_slugify_of_latin1 h
  refine ⟨slugify_model_idem s, h2, ?_⟩
  rw [h2, slugifyU_eq_slugify_of_latin1 (slugify_data_latin1 h), slugify_model_idem]

/-- C10 witness: the Latin-1-restricted idempotence instantiated on a
concrete string containing a non-ASCII Latin-1 letter. -/
theorem slugify_idempotent_latin1_witness :
    (∀ c ∈ ("São Paulo!" : String).data, c.toNat < 256) ∧
    (_slugify (_slugify "São Paulo!") = _slugify "São Paulo!" ∧
      slugifyU "São Paulo!" = _slugify "São Paulo!" ∧
      slugifyU (slugifyU "São Paulo!") = slugifyU "São Paulo!") :=
  ⟨by decide, slugify_idempotent_latin1 "São Paulo!" (by decide)⟩
